import Mathlib

/-!
Shallow embedding of the user_service authentication core
(src/src/plugins/auth.js: the auth plugin and the user routes,
src/utils/password.js: the bcrypt wrappers, src/shared-response.js:
the response envelope), together with theorems settling the frozen
claims about it.

Modelling conventions:
* Machine clock times are `Nat` seconds (as in the `iat` and `exp`
  claims of a JSON Web Token).
* The jsonwebtoken library (external to the repository) is embedded at
  its interface: a signed token is the pair of its payload and the key
  it was signed with, and verification succeeds exactly when the
  presented key equals the signing key and the clock has not reached
  `exp` (jsonwebtoken rejects with TokenExpiredError when
  clockTimestamp is greater than or equal to exp). Malformed wire
  strings are a separate constructor.
* The bcrypt library (external to the repository) is embedded at its
  interface: the per-call random salt is an explicit parameter and the
  underlying one-way function is idealized as a collision-free map, so
  a digest determines the plaintext it was produced from. One-wayness
  is not part of any claim and is not modelled.
* The Prisma persistence collaborator is embedded as two in-memory
  tables (users, notification preferences). Each route handler is a
  pure function from the table state and request data to the new table
  state and the reply that the handler sends.
-/

namespace UserService

/-! ## Token issuer / verifier (src/src/plugins/auth.js lines 24-26 and 36-42) -/

/-- The claims jwt.sign embeds for this service: `generateToken` signs
the object with fields user_id and email, and the library adds iat and
exp (exp = iat + ttl). -/
structure JwtPayload where
  user_id : String
  email : String
  iat : Nat
  exp : Nat
deriving DecidableEq, Repr

/-- A token as it travels on the wire: either a string that does not
parse as a JWT at all, or a payload together with the key that signed
it (an idealized unforgeable signature). -/
inductive TokenWire where
  | malformed (raw : String)
  | signed (payload : JwtPayload) (sigKey : String)
deriving DecidableEq, Repr

/-- The three failure kinds of jsonwebtoken verification. -/
inductive JwtError where
  | malformedToken
  | invalidSignature
  | tokenExpired
deriving DecidableEq, Repr

/-- jwt.sign at the interface level. -/
def jwtSign (payload : JwtPayload) (secret : String) : TokenWire :=
  .signed payload secret

/-- jwt.verify at the interface level: parse, check the signature,
then check expiry (expired exactly when `exp ≤ now`). -/
def jwtVerify (tok : TokenWire) (secret : String) (now : Nat) :
    Except JwtError JwtPayload :=
  match tok with
  | .malformed _ => .error .malformedToken
  | .signed p k =>
    if k = secret then
      if p.exp ≤ now then .error .tokenExpired else .ok p
    else .error .invalidSignature

/-- The default token lifetime: the string literal "7d" in
auth.js line 40, in seconds. -/
def defaultJwtTtl : Nat := 7 * 24 * 60 * 60

/-- fastify.generateToken (auth.js lines 36-42): sign
`\x7b user_id, email \x7d` with the process secret; the expiry
configuration JWT_EXPIRES_IN defaults to 7 days. -/
def generateToken (userId email secret : String) (jwtExpiresIn : Option Nat)
    (now : Nat) : TokenWire :=
  jwtSign
    { user_id := userId, email := email, iat := now
      exp := now + jwtExpiresIn.getD defaultJwtTtl }
    secret

/-! ## Authorization gate (src/src/plugins/auth.js lines 13-33) -/

/-- What fastify.authenticate does to a request: either it sends a
denial reply with a status and message, or it attaches the decoded
identity to the request context. -/
inductive GateResult where
  | denied (status : Nat) (message : String)
  | allowed (user : JwtPayload)
deriving DecidableEq, Repr

/-- authHeader.startsWith with the 7 character scheme string, written
on the underlying character list (String.startsWith compares exactly
the first characters, and header strings here are plain ASCII). -/
def hasBearerScheme (h : String) : Bool :=
  h.data.take 7 == "Bearer ".data

/-- authHeader.substring(7): the header with the scheme removed. -/
def bearerPart (h : String) : String :=
  String.mk (h.data.drop 7)

/-- fastify.authenticate. `authHeader` is the raw Authorization header
(absent or a string); `decodeTok` is the parsing of a compact JWT
string into a wire token, abstracted because base64 and HMAC live in
the external library. The handler returns 401 when the header is
absent or does not start with "Bearer ", otherwise strips the 7
character scheme, verifies, and maps any verification error to 403. -/
def authenticate (authHeader : Option String) (decodeTok : String → TokenWire)
    (secret : String) (now : Nat) : GateResult :=
  match authHeader with
  | none => .denied 401 "Access token required"
  | some h =>
    if hasBearerScheme h then
      match jwtVerify (decodeTok (bearerPart h)) secret now with
      | .ok decoded => .allowed decoded
      | .error _ => .denied 403 "Invalid or expired token"
    else .denied 401 "Access token required"

/-! ## Credential hasher (src/utils/password.js) -/

/-- A bcrypt digest: the embedded salt plus the output of the one-way
function on (salt, plaintext). -/
structure BcryptDigest where
  salt : Nat
  body : String
deriving DecidableEq, Repr

/-- The bcrypt one-way function, idealized as collision-free: within
this embedding the digest body determines the plaintext. -/
def bcryptOneWay (_salt : Nat) (plaintext : String) : String :=
  plaintext

/-- hashPassword (password.js): bcrypt.hash with a fresh random salt,
made an explicit parameter here. -/
def hashPassword (salt : Nat) (password : String) : BcryptDigest :=
  { salt := salt, body := bcryptOneWay salt password }

/-- comparePassword (password.js): bcrypt.compare recomputes with the
salt embedded in the digest and compares. -/
def comparePassword (password : String) (hashed : BcryptDigest) : Bool :=
  bcryptOneWay hashed.salt password == hashed.body

/-! ## Persistence collaborator state (Prisma user and
notification_preferences tables) -/

/-- A row of the notification preferences table. `updated_at` models
the row timestamp kept by the underlying store; the route handlers
never return it. -/
structure PrefRow where
  user_id : String
  email : Bool
  push : Bool
  sms : Bool
  updated_at : Nat
deriving DecidableEq, Repr

/-- A row of the users table. -/
structure UserRow where
  id : String
  email : String
  password : BcryptDigest
  name : String
  push_token : Option String
  created_at : Nat
  updated_at : Nat
deriving DecidableEq, Repr

/-- The persistence collaborator state: both tables. -/
structure DB where
  users : List UserRow
  prefs : List PrefRow
deriving DecidableEq, Repr

/-- prisma.user.findUnique on the email unique key. -/
def findUserByEmail (db : DB) (e : String) : Option UserRow :=
  db.users.find? (fun u => u.email == e)

/-- prisma.user.findUnique on the id primary key. -/
def findUserById (db : DB) (i : String) : Option UserRow :=
  db.users.find? (fun u => u.id == i)

/-- The join the include clause performs: the preferences row owned by
a user id, if any. -/
def findPrefs (db : DB) (uid : String) : Option PrefRow :=
  db.prefs.find? (fun r => r.user_id == uid)

/-! ## Serialized shapes -/

/-- The notification_preferences object as serialized in replies. -/
structure PrefsOut where
  email : Bool
  push : Bool
  sms : Bool
deriving DecidableEq, Repr

def prefsOut (r : PrefRow) : PrefsOut :=
  { email := r.email, push := r.push, sms := r.sms }

/-- A user object after the rest destructuring
`const \x7b password: _, ...userWithoutPassword \x7d = user`: every
field of the included user except the password digest. -/
structure UserPublic where
  id : String
  email : String
  name : String
  push_token : Option String
  notification_preferences : Option PrefsOut
  created_at : Nat
  updated_at : Nat
deriving DecidableEq, Repr

/-- Build the outward user object from a row and its included
preferences, dropping the password digest. -/
def stripPassword (u : UserRow) (pr : Option PrefRow) : UserPublic :=
  { id := u.id, email := u.email, name := u.name
    push_token := u.push_token
    notification_preferences := pr.map prefsOut
    created_at := u.created_at, updated_at := u.updated_at }

/-- The reply a route handler sends: createResponse
(src/shared-response.js) plus the HTTP status passed to reply.status.
Failure replies carry no data. -/
inductive ApiResult (α : Type) where
  | failure (status : Nat) (message : String)
  | success (status : Nat) (message : String) (data : α)
deriving DecidableEq, Repr

/-- The data object of register and login success replies. -/
structure AuthData where
  user : UserPublic
  token : TokenWire
deriving DecidableEq, Repr

/-! ## Route handlers (src/src/plugins/auth.js userRoutes) -/

/-- prisma.user.create with the nested notification_preferences
create: the database enforces the unique constraint on email and
raises P2002 when it is violated; otherwise both rows are written
atomically. -/
def prismaCreateUserWithPrefs (db : DB) (u : UserRow) (pr : PrefRow) :
    Except String DB :=
  if db.users.any (fun v => v.email == u.email) then .error "P2002"
  else .ok { users := db.users ++ [u], prefs := db.prefs ++ [pr] }

/-- The user row the register create writes: the hashed password, no
push token, and both timestamps set at creation. -/
def newUserRow (email password name : String) (salt : Nat) (newId : String)
    (now : Nat) : UserRow :=
  { id := newId, email := email, password := hashPassword salt password
    name := name, push_token := none, created_at := now, updated_at := now }

/-- The nested notification preferences row the register create
writes: the defaults email true, push true, sms false. -/
def defaultPrefRow (newId : String) (now : Nat) : PrefRow :=
  { user_id := newId, email := true, push := true, sms := false
    updated_at := now }

/-- POST / (auth.js lines 222-276). `dbCheck` is the table state the
findUnique pre-check reads and `dbCreate` the state the create runs
against: they differ exactly when a concurrent registration commits
between the two calls, and coincide (register db db ...) in the
sequential case. The salt of the bcrypt call and the id the database
assigns are explicit parameters. The catch block of the source maps
every thrown error, including P2002, to a 500 reply. -/
def register (dbCheck dbCreate : DB) (email password name : String)
    (salt : Nat) (newId secret : String) (jwtExpiresIn : Option Nat)
    (now : Nat) : DB × ApiResult AuthData :=
  match findUserByEmail dbCheck email with
  | some _ => (dbCreate, .failure 409 "User with this email already exists")
  | none =>
    match prismaCreateUserWithPrefs dbCreate
        (newUserRow email password name salt newId now)
        (defaultPrefRow newId now) with
    | .ok db2 =>
      (db2, .success 201 "User created successfully"
        { user := stripPassword (newUserRow email password name salt newId now)
            (some (defaultPrefRow newId now))
          token := generateToken newId email secret jwtExpiresIn now })
    | .error _ => (dbCreate, .failure 500 "Internal server error")

/-- POST /login (auth.js lines 279-322): look the user up by email,
compare the password, and reply with the identical 401 message for
both failure modes. -/
def login (db : DB) (email password secret : String)
    (jwtExpiresIn : Option Nat) (now : Nat) : ApiResult AuthData :=
  match findUserByEmail db email with
  | none => .failure 401 "Invalid email or password"
  | some u =>
    if comparePassword password u.password then
      .success 200 "Login successful"
        { user := stripPassword u (findPrefs db u.id)
          token := generateToken u.id u.email secret jwtExpiresIn now }
    else .failure 401 "Invalid email or password"

/-- GET /:user_id (auth.js lines 325-353). -/
def getProfile (db : DB) (user_id : String) : ApiResult UserPublic :=
  match findUserById db user_id with
  | none => .failure 404 "User not found"
  | some u =>
    .success 200 "User profile retrieved successfully"
      (stripPassword u (findPrefs db user_id))

/-- The PATCH /:user_id body: each field is present or absent, and
push_token may be set to null when present. -/
structure ProfileUpdates where
  name : Option String
  push_token : Option (Option String)
deriving DecidableEq, Repr

/-- Object.keys(updates).length === 0 for the profile body. -/
def ProfileUpdates.isEmpty (u : ProfileUpdates) : Bool :=
  u.name.isNone && u.push_token.isNone

/-- prisma.user.update data application: provided fields overwrite,
absent fields are untouched, and the store refreshes updated_at. -/
def applyProfileUpdates (row : UserRow) (up : ProfileUpdates) (now : Nat) :
    UserRow :=
  { row with name := up.name.getD row.name
             push_token := up.push_token.getD row.push_token
             updated_at := now }

/-- Replace the user row with the given id. -/
def writeUserRow (l : List UserRow) (uid : String) (row : UserRow) :
    List UserRow :=
  l.map (fun u => if u.id == uid then row else u)

/-- PATCH /:user_id (auth.js lines 356-405): ownership check, empty
body check, then prisma.user.update; the catch maps P2025 (record not
found) to 404 and anything else to 500. -/
def updateProfile (db : DB) (user_id : String) (requester : JwtPayload)
    (updates : ProfileUpdates) (now : Nat) : DB × ApiResult UserPublic :=
  if requester.user_id ≠ user_id then
    (db, .failure 403 "You can only update your own profile")
  else if updates.isEmpty then
    (db, .failure 400 "No valid fields to update")
  else
    match findUserById db user_id with
    | none => (db, .failure 404 "User not found")
    | some row =>
      ({ db with users :=
          writeUserRow db.users user_id (applyProfileUpdates row updates now) },
       .success 200 "User updated successfully"
        (stripPassword (applyProfileUpdates row updates now)
          (findPrefs db user_id)))

/-- The PATCH /:user_id/preferences body: each boolean present or
absent. -/
structure PrefsPatch where
  email : Option Bool
  push : Option Bool
  sms : Option Bool
deriving DecidableEq, Repr

/-- Object.keys(preferences).length === 0 for the preferences body. -/
def PrefsPatch.isEmpty (p : PrefsPatch) : Bool :=
  p.email.isNone && p.push.isNone && p.sms.isNone

/-- prisma.notificationPreferences.upsert on the user_id unique key:
merge-update an existing row, else insert a fresh row with the schema
defaults (true, true, false) for the unsupplied booleans; the foreign
key to users raises P2003 when the owner row is absent. Returns the
new table and the row the call yields. -/
def prismaUpsertPrefs (db : DB) (uid : String) (patch : PrefsPatch)
    (now : Nat) : Except String (List PrefRow × PrefRow) :=
  match db.prefs.find? (fun r => r.user_id == uid) with
  | some r =>
    let r2 : PrefRow :=
      { r with email := patch.email.getD r.email
               push := patch.push.getD r.push
               sms := patch.sms.getD r.sms
               updated_at := now }
    .ok (db.prefs.map (fun q => if q.user_id == uid then r2 else q), r2)
  | none =>
    if db.users.any (fun u => u.id == uid) then
      let r2 : PrefRow :=
        { user_id := uid, email := patch.email.getD true
          push := patch.push.getD true, sms := patch.sms.getD false
          updated_at := now }
      .ok (db.prefs ++ [r2], r2)
    else .error "P2003"

/-- The data object of the preferences success reply: the account id,
the upserted booleans, and the updated_at taken from the re-fetched
account row. -/
structure PrefsResponse where
  id : String
  notification_preferences : PrefsOut
  updated_at : Nat
deriving DecidableEq, Repr

/-- PATCH /:user_id/preferences (auth.js lines 408-467): ownership
check, empty body check, upsert, then re-fetch the account row for its
id and updated_at. Its catch block is generic: an upsert failure, or
the null dereference when the re-fetch finds no account row, both land
in the single 500 reply. -/
def updatePreferences (db : DB) (user_id : String) (requester : JwtPayload)
    (patch : PrefsPatch) (now : Nat) : DB × ApiResult PrefsResponse :=
  if requester.user_id ≠ user_id then
    (db, .failure 403 "You can only update your own preferences")
  else if patch.isEmpty then
    (db, .failure 400 "No preferences provided to update")
  else
    match prismaUpsertPrefs db user_id patch now with
    | .error _ => (db, .failure 500 "Internal server error")
    | .ok (prefs2, row) =>
      match findUserById { db with prefs := prefs2 } user_id with
      | none =>
        ({ db with prefs := prefs2 }, .failure 500 "Internal server error")
      | some u =>
        ({ db with prefs := prefs2 },
         .success 200 "Notification preferences updated successfully"
          { id := u.id, notification_preferences := prefsOut row
            updated_at := u.updated_at })

/-! ## Demo values used by witnesses -/

/-- A decode function that parses nothing: every compact string is
malformed. -/
def demoDecode : String → TokenWire := fun s => TokenWire.malformed s

/-- A stored user for concrete evaluations. -/
def demoUser : UserRow :=
  { id := "u1", email := "a@b.com", password := hashPassword 1 "pw"
    name := "Ada", push_token := none, created_at := 0, updated_at := 5 }

/-- A one-user database with no preferences row yet. -/
def demoDb : DB := { users := [demoUser], prefs := [] }

/-! ## Claims -/

/-- C1: verifying a token issued by generateToken with the same secret
before its expiry succeeds and yields exactly the identity claims that
were signed (subject id and email, with iat the issue time and exp the
issue time plus the configured ttl, 7 days by default); verifying it
once the ttl has elapsed fails with the expired outcome. -/
theorem c1_token_roundtrip_and_expiry (id email secret : String)
    (cfg : Option Nat) (t0 t : Nat) :
    (t < t0 + cfg.getD defaultJwtTtl →
      jwtVerify (generateToken id email secret cfg t0) secret t =
        .ok { user_id := id, email := email, iat := t0
              exp := t0 + cfg.getD defaultJwtTtl }) ∧
    (t0 + cfg.getD defaultJwtTtl ≤ t →
      jwtVerify (generateToken id email secret cfg t0) secret t =
        .error .tokenExpired) := by
  constructor
  · intro h
    simp [generateToken, jwtSign, jwtVerify, Nat.not_le.mpr h]
  · intro h
    simp [generateToken, jwtSign, jwtVerify, h]

/-- Witness for C1 at a concrete issue time 10, ttl 100, checked at
clocks 50 (valid) and 110 (expired). -/
theorem c1_witness :
    jwtVerify (generateToken "u1" "a@b.com" "s" (some 100) 10) "s" 50 =
      .ok { user_id := "u1", email := "a@b.com", iat := 10, exp := 110 } ∧
    jwtVerify (generateToken "u1" "a@b.com" "s" (some 100) 10) "s" 110 =
      .error .tokenExpired :=
  ⟨(c1_token_roundtrip_and_expiry "u1" "a@b.com" "s" (some 100) 10 50).1
      (by decide),
   (c1_token_roundtrip_and_expiry "u1" "a@b.com" "s" (some 100) 10 110).2
      (by decide)⟩

/-- C2: the verifier accepts exactly the plaintext that was hashed:
comparePassword p (hashPassword s p) is true, and for p1 distinct from
p2 comparePassword p1 (hashPassword s p2) is false (under the
collision-free idealization of the bcrypt one-way function). -/
theorem c2_hash_verify_exact (salt : Nat) (p p1 p2 : String) :
    comparePassword p (hashPassword salt p) = true ∧
    (p1 ≠ p2 → comparePassword p1 (hashPassword salt p2) = false) := by
  refine ⟨?_, ?_⟩
  · simp [comparePassword, hashPassword, bcryptOneWay]
  · intro h
    simp only [comparePassword, hashPassword, bcryptOneWay]
    exact beq_eq_false_iff_ne.mpr h

/-- Witness for C2 on concrete passwords. -/
theorem c2_witness :
    comparePassword "hunter2" (hashPassword 3 "hunter2") = true ∧
    comparePassword "hunter2" (hashPassword 3 "hunter3") = false :=
  ⟨(c2_hash_verify_exact 3 "hunter2" "a" "b").1,
   (c2_hash_verify_exact 3 "x" "hunter2" "hunter3").2 (by decide)⟩

/-- C3: the gate replies 401 "Access token required" when the header
is absent or lacks the Bearer scheme, for every decode function,
secret and clock (so no verification is attempted there); when a
bearer token is present and verification fails for any reason it
replies 403 "Invalid or expired token"; when verification succeeds the
decoded identity is attached to the request. -/
theorem c3_gate_branches (decodeTok : String → TokenWire) (secret : String)
    (now : Nat) :
    (authenticate none decodeTok secret now =
      .denied 401 "Access token required") ∧
    (∀ h : String, hasBearerScheme h = false →
      authenticate (some h) decodeTok secret now =
        .denied 401 "Access token required") ∧
    (∀ (h : String) (e : JwtError), hasBearerScheme h = true →
      jwtVerify (decodeTok (bearerPart h)) secret now = .error e →
      authenticate (some h) decodeTok secret now =
        .denied 403 "Invalid or expired token") ∧
    (∀ (h : String) (p : JwtPayload), hasBearerScheme h = true →
      jwtVerify (decodeTok (bearerPart h)) secret now = .ok p →
      authenticate (some h) decodeTok secret now = .allowed p) := by
  refine ⟨rfl, ?_, ?_, ?_⟩
  · intro h hb
    simp [authenticate, hb]
  · intro h e hb hv
    simp [authenticate, hb, hv]
  · intro h p hb hv
    simp [authenticate, hb, hv]

/-- Witness for C3: a missing header, a header with the wrong scheme,
a bearer header whose token is malformed, and a bearer header whose
token verifies. -/
theorem c3_witness :
    authenticate none demoDecode "s" 0 =
      .denied 401 "Access token required" ∧
    authenticate (some "Token abc") demoDecode "s" 0 =
      .denied 401 "Access token required" ∧
    authenticate (some "Bearer abc") demoDecode "s" 0 =
      .denied 403 "Invalid or expired token" ∧
    authenticate (some "Bearer abc")
        (fun _ => generateToken "u1" "e" "s" (some 100) 0) "s" 5 =
      .allowed { user_id := "u1", email := "e", iat := 0, exp := 100 } :=
  ⟨(c3_gate_branches demoDecode "s" 0).1,
   (c3_gate_branches demoDecode "s" 0).2.1 "Token abc" (by decide),
   (c3_gate_branches demoDecode "s" 0).2.2.1 "Bearer abc"
     JwtError.malformedToken (by decide) rfl,
   (c3_gate_branches (fun _ => generateToken "u1" "e" "s" (some 100) 0)
       "s" 5).2.2.2 "Bearer abc"
     { user_id := "u1", email := "e", iat := 0, exp := 100 }
     (by decide) rfl⟩

/-- C4: a login for an unknown email and a login for a known email
with a wrong password reply with the same status 401 and the identical
message "Invalid email or password". -/
theorem c4_login_uniform_message (db : DB) (email password secret : String)
    (cfg : Option Nat) (now : Nat) :
    (findUserByEmail db email = none →
      login db email password secret cfg now =
        .failure 401 "Invalid email or password") ∧
    (∀ u, findUserByEmail db email = some u →
      comparePassword password u.password = false →
      login db email password secret cfg now =
        .failure 401 "Invalid email or password") := by
  constructor
  · intro h
    simp [login, h]
  · intro u hu hpw
    simp [login, hu, hpw]

/-- Witness for C4: on the demo database the unknown-email case and
the wrong-password case produce the same reply. -/
theorem c4_witness :
    login demoDb "x@y.com" "pw" "s" none 9 =
      .failure 401 "Invalid email or password" ∧
    login demoDb "a@b.com" "wrong" "s" none 9 =
      .failure 401 "Invalid email or password" :=
  ⟨(c4_login_uniform_message demoDb "x@y.com" "pw" "s" none 9).1 (by decide),
   (c4_login_uniform_message demoDb "a@b.com" "wrong" "s" none 9).2 demoUser
     (by decide) (by decide)⟩

/-- When the email lookup finds nothing, no stored user carries that
email, so the unique constraint accepts the create. -/
theorem users_any_email_false_of_find_none (db : DB) (e : String)
    (h : findUserByEmail db e = none) :
    db.users.any (fun v => v.email == e) = false := by
  simp only [findUserByEmail, List.find?_eq_none] at h
  simp only [List.any_eq_false]
  exact h

/-- When no stored user carries the email of the new row, the create
succeeds and appends both rows. -/
theorem prismaCreateUserWithPrefs_ok (db : DB) (u : UserRow) (pr : PrefRow)
    (h : db.users.any (fun v => v.email == u.email) = false) :
    prismaCreateUserWithPrefs db u pr =
      .ok { users := db.users ++ [u], prefs := db.prefs ++ [pr] } := by
  unfold prismaCreateUserWithPrefs
  rw [h]
  rfl

/-- C5: registering an email that already exists replies 409 "User
with this email already exists" and writes nothing; otherwise exactly
one user row and one preferences row are appended together, the
preferences row carries the defaults email true, push true, sms false,
and the 201 reply carries the password-stripped user plus a freshly
issued token. -/
theorem c5_register_conflict_or_create (db : DB)
    (email password name : String) (salt : Nat) (newId secret : String)
    (cfg : Option Nat) (now : Nat) :
    (∀ u, findUserByEmail db email = some u →
      register db db email password name salt newId secret cfg now =
        (db, .failure 409 "User with this email already exists")) ∧
    (findUserByEmail db email = none →
      register db db email password name salt newId secret cfg now =
        ({ users := db.users ++ [newUserRow email password name salt newId now]
           prefs := db.prefs ++ [defaultPrefRow newId now] },
         .success 201 "User created successfully"
           { user := stripPassword (newUserRow email password name salt newId now)
               (some (defaultPrefRow newId now))
             token := generateToken newId email secret cfg now })) ∧
    defaultPrefRow newId now =
      { user_id := newId, email := true, push := true, sms := false
        updated_at := now } := by
  refine ⟨?_, ?_, rfl⟩
  · intro u hu
    simp [register, hu]
  · intro h
    have hfalse : db.users.any
        (fun v => v.email == (newUserRow email password name salt newId now).email) =
          false :=
      users_any_email_false_of_find_none db email h
    unfold register
    rw [h]
    simp only [prismaCreateUserWithPrefs_ok db
      (newUserRow email password name salt newId now)
      (defaultPrefRow newId now) hfalse]

/-- Witness for C5: the conflict branch on the demo database and the
create branch on the empty database. -/
theorem c5_witness :
    register demoDb demoDb "a@b.com" "pw2" "Bob" 2 "u2" "s" none 7 =
      (demoDb, .failure 409 "User with this email already exists") ∧
    register { users := [], prefs := [] } { users := [], prefs := [] }
        "b@c.com" "pw2" "Bob" 2 "u2" "s" none 7 =
      ({ users := [newUserRow "b@c.com" "pw2" "Bob" 2 "u2" 7]
         prefs := [defaultPrefRow "u2" 7] },
       .success 201 "User created successfully"
         { user := stripPassword (newUserRow "b@c.com" "pw2" "Bob" 2 "u2" 7)
             (some (defaultPrefRow "u2" 7))
           token := generateToken "u2" "b@c.com" "s" none 7 }) :=
  ⟨(c5_register_conflict_or_create demoDb "a@b.com" "pw2" "Bob" 2 "u2" "s"
      none 7).1 demoUser (by decide),
   by
    have h := (c5_register_conflict_or_create { users := [], prefs := [] }
      "b@c.com" "pw2" "Bob" 2 "u2" "s" none 7).2.1 (by decide)
    simpa using h⟩

/-- C6: when the findUnique pre-check sees no conflicting user but a
concurrent registration for the same email commits before the create
runs, the create raises the unique-constraint error P2002 and the
handler replies 500 "Internal server error", not the 409 conflict
reply of the pre-check path: the catch block of POST / never inspects
the error code. -/
theorem c6_race_hits_generic_catch :
    register { users := [], prefs := [] } demoDb "a@b.com" "pw2" "Bob" 2
        "u2" "s" none 7 =
      (demoDb, .failure 500 "Internal server error") := by
  decide

/-- C7: an update-profile or update-preferences request whose
authenticated identity differs from the target account id replies 403
with the respective message and leaves both tables untouched. -/
theorem c7_ownership_mismatch_forbidden (db : DB) (uid : String)
    (req : JwtPayload) (up : ProfileUpdates) (pp : PrefsPatch) (now : Nat)
    (hne : req.user_id ≠ uid) :
    updateProfile db uid req up now =
      (db, .failure 403 "You can only update your own profile") ∧
    updatePreferences db uid req pp now =
      (db, .failure 403 "You can only update your own preferences") := by
  constructor
  · simp [updateProfile, hne]
  · simp [updatePreferences, hne]

/-- Witness for C7: identity u2 targeting account u1 on the demo
database. -/
theorem c7_witness :
    updateProfile demoDb "u1" { user_id := "u2", email := "e", iat := 0, exp := 9 }
        { name := some "N", push_token := none } 3 =
      (demoDb, .failure 403 "You can only update your own profile") ∧
    updatePreferences demoDb "u1" { user_id := "u2", email := "e", iat := 0, exp := 9 }
        { email := none, push := none, sms := some true } 3 =
      (demoDb, .failure 403 "You can only update your own preferences") :=
  c7_ownership_mismatch_forbidden demoDb "u1"
    { user_id := "u2", email := "e", iat := 0, exp := 9 }
    { name := some "N", push_token := none }
    { email := none, push := none, sms := some true } 3 (by decide)

/-- C8: every success reply of register, login, getProfile and
updateProfile builds its user object with stripPassword, and
stripPassword ignores the stored digest entirely, so no success reply
of any operation contains the password hash. -/
theorem c8_success_replies_strip_password :
    (∀ (u : UserRow) (pr : Option PrefRow) (d : BcryptDigest),
      stripPassword { u with password := d } pr = stripPassword u pr) ∧
    (∀ (db : DB) (e pw sec : String) (cfg : Option Nat) (now st : Nat)
        (msg : String) (d : AuthData),
      login db e pw sec cfg now = .success st msg d →
      ∃ u, d.user = stripPassword u (findPrefs db u.id)) ∧
    (∀ (db : DB) (i : String) (st : Nat) (msg : String) (d : UserPublic),
      getProfile db i = .success st msg d →
      ∃ u, d = stripPassword u (findPrefs db i)) ∧
    (∀ (dbCheck dbCreate : DB) (e pw nm : String) (salt : Nat)
        (newId sec : String) (cfg : Option Nat) (now : Nat) (db2 : DB)
        (st : Nat) (msg : String) (d : AuthData),
      register dbCheck dbCreate e pw nm salt newId sec cfg now =
        (db2, .success st msg d) →
      ∃ u pr, d.user = stripPassword u (some pr)) ∧
    (∀ (db : DB) (i : String) (req : JwtPayload) (up : ProfileUpdates)
        (now : Nat) (db2 : DB) (st : Nat) (msg : String) (d : UserPublic),
      updateProfile db i req up now = (db2, .success st msg d) →
      ∃ u, d = stripPassword u (findPrefs db i)) := by
  refine ⟨fun u pr d => rfl, ?_, ?_, ?_, ?_⟩
  · intro db e pw sec cfg now st msg d h
    unfold login at h
    split at h
    · simp at h
    · rename_i u heq
      split at h
      · refine ⟨u, ?_⟩
        injection h with h1 h2 h3
        rw [← h3]
      · simp at h
  · intro db i st msg d h
    unfold getProfile at h
    split at h
    · simp at h
    · rename_i u heq
      refine ⟨u, ?_⟩
      injection h with h1 h2 h3
      rw [← h3]
  · intro dbCheck dbCreate e pw nm salt newId sec cfg now db2 st msg d h
    unfold register at h
    split at h
    · injection h with hdb hres
      simp at hres
    · split at h
      · injection h with hdb hres
        injection hres with h1 h2 h3
        exact ⟨newUserRow e pw nm salt newId now, defaultPrefRow newId now,
          by rw [← h3]⟩
      · injection h with hdb hres
        simp at hres
  · intro db i req up now db2 st msg d h
    unfold updateProfile at h
    split at h
    · injection h with hdb hres
      simp at hres
    · split at h
      · injection h with hdb hres
        simp at hres
      · split at h
        · injection h with hdb hres
          simp at hres
        · rename_i row heq
          injection h with hdb hres
          injection hres with h1 h2 h3
          exact ⟨applyProfileUpdates row up now, by rw [← h3]⟩

/-- Witness for C8: concrete success replies of each operation and a
digest change that leaves the stripped object untouched. -/
theorem c8_witness :
    (stripPassword { demoUser with password := hashPassword 9 "zz" } none =
      stripPassword demoUser none) ∧
    (∃ u, (AuthData.mk (stripPassword demoUser none)
        (generateToken "u1" "a@b.com" "s" none 9)).user =
      stripPassword u (findPrefs demoDb u.id)) ∧
    (∃ u, stripPassword demoUser none = stripPassword u (findPrefs demoDb "u1")) ∧
    (∃ u pr, (AuthData.mk
        (stripPassword (newUserRow "b@c.com" "pw2" "Bob" 2 "u2" 7)
          (some (defaultPrefRow "u2" 7)))
        (generateToken "u2" "b@c.com" "s" none 7)).user =
      stripPassword u (some pr)) ∧
    (∃ u, stripPassword
        (applyProfileUpdates demoUser { name := some "N", push_token := none } 3)
        (findPrefs demoDb "u1") =
      stripPassword u (findPrefs demoDb "u1")) :=
  ⟨c8_success_replies_strip_password.1 demoUser none (hashPassword 9 "zz"),
   c8_success_replies_strip_password.2.1 demoDb "a@b.com" "pw" "s" none 9
     200 "Login successful"
     (AuthData.mk (stripPassword demoUser none)
       (generateToken "u1" "a@b.com" "s" none 9)) rfl,
   c8_success_replies_strip_password.2.2.1 demoDb "u1"
     200 "User profile retrieved successfully" (stripPassword demoUser none) rfl,
   c8_success_replies_strip_password.2.2.2.1 { users := [], prefs := [] }
     { users := [], prefs := [] } "b@c.com" "pw2" "Bob" 2 "u2" "s" none 7
     { users := [newUserRow "b@c.com" "pw2" "Bob" 2 "u2" 7]
       prefs := [defaultPrefRow "u2" 7] }
     201 "User created successfully"
     (AuthData.mk
       (stripPassword (newUserRow "b@c.com" "pw2" "Bob" 2 "u2" 7)
         (some (defaultPrefRow "u2" 7)))
       (generateToken "u2" "b@c.com" "s" none 7)) rfl,
   c8_success_replies_strip_password.2.2.2.2 demoDb "u1"
     { user_id := "u1", email := "a@b.com", iat := 0, exp := 9 }
     { name := some "N", push_token := none } 3
     { users := [applyProfileUpdates demoUser
         { name := some "N", push_token := none } 3], prefs := [] }
     200 "User updated successfully"
     (stripPassword
       (applyProfileUpdates demoUser { name := some "N", push_token := none } 3)
       (findPrefs demoDb "u1")) rfl⟩

/-- A preferences row for the demo user whose own store timestamp, 3,
differs from the account row timestamp, 5. -/
def demoPref : PrefRow :=
  { user_id := "u1", email := true, push := true, sms := false
    updated_at := 3 }

/-- The demo database with the preferences row present. -/
def demoDb2 : DB := { users := [demoUser], prefs := [demoPref] }

/-- An id lookup that succeeds names a stored row, so the foreign key
accepts a preferences insert for that id. -/
theorem users_any_id_true_of_find_some (db : DB) (i : String) (u : UserRow)
    (h : findUserById db i = some u) :
    db.users.any (fun v => v.id == i) = true := by
  have h2 : db.users.find? (fun v => v.id == i) = some u := h
  have hmem : u ∈ db.users := List.mem_of_find?_eq_some h2
  have hpu := List.find?_some h2
  exact List.any_eq_true.mpr ⟨u, hmem, hpu⟩

/-- An id lookup that fails means no stored row carries the id, so the
foreign key rejects a preferences insert for it. -/
theorem users_any_id_false_of_find_none (db : DB) (i : String)
    (h : findUserById db i = none) :
    db.users.any (fun v => v.id == i) = false := by
  simp only [findUserById, List.find?_eq_none] at h
  simp only [List.any_eq_false]
  exact h

/-- When the owning account row exists, the preferences upsert
succeeds and stamps the yielded row with the upsert time. -/
theorem prismaUpsertPrefs_ok_of_user (db : DB) (uid : String)
    (patch : PrefsPatch) (now : Nat) (u : UserRow)
    (hu : findUserById db uid = some u) :
    ∃ prefs2 row, prismaUpsertPrefs db uid patch now = .ok (prefs2, row) ∧
      row.updated_at = now := by
  unfold prismaUpsertPrefs
  cases hp : db.prefs.find? (fun r => r.user_id == uid) with
  | some r => exact ⟨_, _, rfl, rfl⟩
  | none =>
    rw [users_any_id_true_of_find_some db uid u hu]
    exact ⟨_, _, rfl, rfl⟩

/-- C9: on a successful preferences update the reply carries the
updated_at of the account row looked up again after the upsert; the
upsert leaves the users table untouched, so that timestamp is the
account record timestamp, while the preferences row itself is stamped
with the upsert time. -/
theorem c9_preferences_reply_uses_account_updated_at (db : DB) (uid : String)
    (req : JwtPayload) (patch : PrefsPatch) (now : Nat) (u : UserRow)
    (hown : req.user_id = uid) (hne : patch.isEmpty = false)
    (hu : findUserById db uid = some u) :
    ∃ prefs2 row,
      prismaUpsertPrefs db uid patch now = .ok (prefs2, row) ∧
      row.updated_at = now ∧
      updatePreferences db uid req patch now =
        ({ users := db.users, prefs := prefs2 },
         .success 200 "Notification preferences updated successfully"
           { id := u.id, notification_preferences := prefsOut row
             updated_at := u.updated_at }) := by
  obtain ⟨prefs2, row, hup, hrow⟩ :=
    prismaUpsertPrefs_ok_of_user db uid patch now u hu
  refine ⟨prefs2, row, hup, hrow, ?_⟩
  unfold updatePreferences
  rw [if_neg (by simp [hown]), if_neg (by simp [hne])]
  have hu2 : findUserById { users := db.users, prefs := prefs2 } uid = some u :=
    hu
  simp only [hup, hu2]

/-- Witness for C9: the demo user whose account timestamp is 5 and
whose preferences row timestamp is 3, upserting sms at time 42: the
reply carries 5, the fresh preferences row carries 42. -/
theorem c9_witness :
    ∃ prefs2 row,
      prismaUpsertPrefs demoDb2 "u1"
          { email := none, push := none, sms := some true } 42 =
        .ok (prefs2, row) ∧
      row.updated_at = 42 ∧
      updatePreferences demoDb2 "u1"
          { user_id := "u1", email := "a@b.com", iat := 0, exp := 9 }
          { email := none, push := none, sms := some true } 42 =
        ({ users := demoDb2.users, prefs := prefs2 },
         .success 200 "Notification preferences updated successfully"
           { id := demoUser.id, notification_preferences := prefsOut row
             updated_at := demoUser.updated_at }) :=
  c9_preferences_reply_uses_account_updated_at demoDb2 "u1"
    { user_id := "u1", email := "a@b.com", iat := 0, exp := 9 }
    { email := none, push := none, sms := some true } 42 demoUser rfl
    (by decide) (by decide)

/-- C10: once authentication, ownership and the non-empty check pass,
a preferences update whose target account row is absent (whether the
foreign key rejects the insert or the re-fetch after the upsert finds
nothing) replies with the generic 500 "Internal server error", never
404; the profile update on the same absent account replies 404 "User
not found" because its catch inspects the record-not-found code. -/
theorem c10_pref_failures_generic_profile_notfound (db : DB) (uid : String)
    (req : JwtPayload) (patch : PrefsPatch) (up : ProfileUpdates) (now : Nat)
    (hown : req.user_id = uid) (hne : patch.isEmpty = false)
    (hneu : up.isEmpty = false) (habs : findUserById db uid = none) :
    (updatePreferences db uid req patch now).2 =
      .failure 500 "Internal server error" ∧
    updateProfile db uid req up now = (db, .failure 404 "User not found") := by
  constructor
  · unfold updatePreferences
    rw [if_neg (by simp [hown]), if_neg (by simp [hne])]
    unfold prismaUpsertPrefs
    cases hp : db.prefs.find? (fun r => r.user_id == uid) with
    | none =>
      rw [users_any_id_false_of_find_none db uid habs]
      rfl
    | some r =>
      have habs2 : findUserById
          { users := db.users
            prefs := db.prefs.map (fun q => if q.user_id == uid then
              { r with email := patch.email.getD r.email
                       push := patch.push.getD r.push
                       sms := patch.sms.getD r.sms
                       updated_at := now } else q) } uid = none := habs
      simp only [habs2]
  · unfold updateProfile
    rw [if_neg (by simp [hown]), if_neg (by simp [hneu]), habs]

/-- Witness for C10: the empty database, an owner-matching identity,
and non-empty bodies. -/
theorem c10_witness :
    (updatePreferences { users := [], prefs := [] } "u9"
        { user_id := "u9", email := "e", iat := 0, exp := 9 }
        { email := none, push := none, sms := some true } 7).2 =
      .failure 500 "Internal server error" ∧
    updateProfile { users := [], prefs := [] } "u9"
        { user_id := "u9", email := "e", iat := 0, exp := 9 }
        { name := some "N", push_token := none } 7 =
      ({ users := [], prefs := [] }, .failure 404 "User not found") :=
  c10_pref_failures_generic_profile_notfound { users := [], prefs := [] }
    "u9" { user_id := "u9", email := "e", iat := 0, exp := 9 }
    { email := none, push := none, sms := some true }
    { name := some "N", push_token := none } 7 rfl (by decide) (by decide)
    (by decide)

end UserService
